import Mathlib

set_option autoImplicit false

/-!
Verification development for the dekopos USB xHCI driver stack
(src/kernel/src/devices/usb/...).  The definitions below are a shallow
embedding of the Rust source: pure data is translated to Lean structures,
`&mut self` methods become functions from the state to a result carrying the
new state, machine integers become `Nat` with explicit `% 2 ^ w` where
overflow matters, panics (assert!/todo!/index out of bounds/unwrap) are
modelled as `none`/`.div`, and `Result<T, Error>` becomes an explicit
ok/err result that carries the state observable after the call.
-/

namespace Dekopos

/-! ### TRB models (xhci crate TRB types as used by src/kernel/src/devices/usb/xhci/ring.rs) -/

/-- Model of xhci::ring::trb::Link. `Link::new()` zero-initializes every field
(ring segment pointer 0, toggle cycle false, cycle bit false). -/
structure LinkTrb where
  ringSegmentPointer : Nat
  toggleCycle : Bool
  cycleBit : Bool
  deriving DecidableEq, Repr

/-- ring.rs `link_trb_with_toggle`: `Link::new()` followed by `set_toggle_cycle()`.
No other field is written, so the ring segment pointer stays 0. -/
def linkTrbWithToggle : LinkTrb :=
  { ringSegmentPointer := 0, toggleCycle := true, cycleBit := false }

/-- data_types/request.rs `SetupData`: bmRequestType (u8), bRequest (u8),
wValue, wIndex, wLength (u16), all represented as `Nat`. -/
structure SetupData where
  requestType : Nat
  request : Nat
  value : Nat
  index : Nat
  length : Nat
  deriving DecidableEq, Repr

/-- Model of xhci::ring::trb::transfer::SetupStage, keeping the two raw
parameter words (the only part the repository reads back), the transfer type
field and the cycle bit. -/
structure SetupStage where
  w0 : Nat
  w1 : Nat
  transferType : Nat
  cycleBit : Bool
  deriving DecidableEq, Repr

/-- request.rs `impl From<SetupData> for SetupStage`: writes the fields through
the xhci crate setters, which produce the xHCI Setup Stage TRB layout
word0 = bmRequestType | bRequest << 8 | wValue << 16 and
word1 = wIndex | wLength << 16.  The transfer type stays at the
`SetupStage::new()` default (NoDataStage = 0). -/
def SetupData.toSetupStage (d : SetupData) : SetupStage :=
  { w0 := d.requestType % 2 ^ 8 + d.request % 2 ^ 8 * 2 ^ 8 + d.value % 2 ^ 16 * 2 ^ 16
  , w1 := d.index % 2 ^ 16 + d.length % 2 ^ 16 * 2 ^ 16
  , transferType := 0
  , cycleBit := false }

/-- request.rs `Recipient` raw values accepted by `TryFrom<u8>`. -/
def recipientValid (v : Nat) : Bool :=
  v = 0 || v = 1 || v = 2 || v = 3 || v = 31

/-- request.rs `Type` raw values accepted by `TryFrom<u8>`. -/
def typeValid (v : Nat) : Bool :=
  v ≤ 2

/-- request.rs `RequestCode` raw values accepted by `TryFrom<u8>`. -/
def requestCodeValid (v : Nat) : Bool :=
  [0, 1, 3, 5, 6, 7, 8, 9, 10, 11, 12, 13, 14, 15, 16, 17, 18, 19, 20, 21,
    22, 23, 26, 27, 48, 49].contains v

/-- request.rs `InvalidForSetup`. -/
inductive InvalidForSetup where
  | requestType (raw : Nat)
  | requestCode (raw : Nat)
  deriving DecidableEq, Repr

/-- request.rs `impl TryFrom<[u32; 2]> for SetupData`.  Faithful to the source:
request type comes from raw0 bits 0..=7 (validated over Recipient/Type),
request from raw0 bits 8..=15, value from raw0 bits 16..=31,
index from raw1 bits 16..=31 and length from raw1 bits 16..31
(an exclusive range, i.e. bits 16..=30). -/
def setupDataOfRaw (raw0 raw1 : Nat) : Except InvalidForSetup SetupData :=
  let rtRaw := raw0 % 2 ^ 8
  if ¬ (recipientValid (rtRaw % 2 ^ 5) ∧ typeValid (rtRaw / 2 ^ 5 % 2 ^ 2)) then
    .error (.requestType rtRaw)
  else
    let reqRaw := raw0 / 2 ^ 8 % 2 ^ 8
    if ¬ requestCodeValid reqRaw then
      .error (.requestCode reqRaw)
    else
      .ok
        { requestType := rtRaw
        , request := reqRaw
        , value := raw0 / 2 ^ 16 % 2 ^ 16
        , index := raw1 / 2 ^ 16 % 2 ^ 16
        , length := raw1 / 2 ^ 16 % 2 ^ 15 }

/-- request.rs `impl TryFrom<SetupStage> for SetupData`: decodes from the raw
parameter words of the TRB. -/
def SetupStage.toSetupData (s : SetupStage) : Except InvalidForSetup SetupData :=
  setupDataOfRaw s.w0 s.w1

/-- Model of xhci::ring::trb::transfer::DataStage (the fields the repository writes). -/
structure DataStage where
  dataBufferPointer : Nat
  trbTransferLength : Nat
  tdSize : Nat
  directionIn : Bool
  interruptOnCompletion : Bool
  cycleBit : Bool
  deriving DecidableEq, Repr

/-- Model of xhci::ring::trb::transfer::StatusStage (the fields the repository writes). -/
structure StatusStage where
  directionIn : Bool
  interruptOnCompletion : Bool
  cycleBit : Bool
  deriving DecidableEq, Repr

/-- Model of xhci::ring::trb::transfer::Allowed (ring.rs alias TrbT). -/
inductive TrbT where
  | setupStage (s : SetupStage)
  | dataStage (d : DataStage)
  | statusStage (s : StatusStage)
  | normal (dataPtr : Nat) (cycleBit : Bool)
  | link (l : LinkTrb)
  deriving DecidableEq, Repr

/-- ring.rs trait `SoftwareProduceTrb`: a link TRB constructor and a cycle-bit
setter, provided by each producer-side TRB type. -/
class SoftwareProduceTrb (Trb : Type) where
  linkTrb : Trb
  setCycleBit : Trb → Bool → Trb

/-- `Allowed::set_cycle_bit` / `clear_cycle_bit` on the transfer TRB enum. -/
def TrbT.withCycleBit : TrbT → Bool → TrbT
  | .setupStage s, b => .setupStage { s with cycleBit := b }
  | .dataStage d, b => .dataStage { d with cycleBit := b }
  | .statusStage s, b => .statusStage { s with cycleBit := b }
  | .normal p _, b => .normal p b
  | .link l, b => .link { l with cycleBit := b }

instance : SoftwareProduceTrb TrbT where
  linkTrb := .link linkTrbWithToggle
  setCycleBit := TrbT.withCycleBit

/-! ### Producer rings (ring.rs `Ring` + `Producer`) -/

/-- `mem::size_of` of the xhci crate TRB enums (`Allowed`): a 16-byte
`[u32; 4]` payload plus a 4-byte-aligned discriminant, i.e. 20 bytes.
`Ring::elem_size` returns this value — NOT the 16-byte size of the raw
TRB slots the backing buffer actually stores. -/
def trbEnumSize : Nat := 20

/-- ring.rs `Producer`: the backing `Ring` buffer (slots hold `none` until first
written, matching the zero-initialized allocation), the producer cycle state,
the write index, and the buffer head address plus `Ring::elem_size` used by
`Ring::addr_at`. -/
structure Producer (Trb : Type) where
  slots : List (Option Trb)
  cycleBit : Bool
  writeIndex : Nat
  headAddr : Nat
  elemSize : Nat
  deriving DecidableEq

/-- The freshly constructed producer state shared by `Producer::<TrbC>::new`
and `Producer::<TrbT>::new`: a zeroed ring of `capacity` slots, cycle bit
true, write index 0. -/
def Producer.fresh (Trb : Type) (capacity headAddr elemSize : Nat) : Producer Trb :=
  { slots := List.replicate capacity none
  , cycleBit := true
  , writeIndex := 0
  , headAddr := headAddr
  , elemSize := elemSize }

/-- `Producer::new`: asserts capacity >= 2 (panic modelled as `none`). -/
def Producer.new (Trb : Type) (capacity headAddr elemSize : Nat) : Option (Producer Trb) :=
  if 2 ≤ capacity then some (Producer.fresh Trb capacity headAddr elemSize) else none

/-- ring.rs `Ring::addr_at`: head address plus index times `elem_size`. -/
def Producer.addrAt {Trb : Type} (p : Producer Trb) (index : Nat) : Nat :=
  p.headAddr + index * p.elemSize

/-- ring.rs `Producer::push`: stamps the producer cycle state into the TRB,
writes it at the write index, remembers that slot's address, advances the
cursor, and when the cursor reaches `last_index` (= capacity - 1) writes
`Trb::link_trb()` there and resets the cursor to 0.  Returns the new state
and the address of the pushed TRB. -/
def Producer.push {Trb : Type} [SoftwareProduceTrb Trb] (p : Producer Trb) (trb : Trb) :
    Producer Trb × Nat :=
  let stamped := SoftwareProduceTrb.setCycleBit trb p.cycleBit
  let slots1 := p.slots.set p.writeIndex (some stamped)
  let trbAddr := p.addrAt p.writeIndex
  let wi := p.writeIndex + 1
  if wi = p.slots.length - 1 then
    ({ p with slots := slots1.set wi (some SoftwareProduceTrb.linkTrb), writeIndex := 0 }, trbAddr)
  else
    ({ p with slots := slots1, writeIndex := wi }, trbAddr)

/-- A sequence of `push` calls, ignoring the returned addresses. -/
def Producer.pushAll {Trb : Type} [SoftwareProduceTrb Trb] (p : Producer Trb)
    (trbs : List Trb) : Producer Trb :=
  trbs.foldl (fun q t => (q.push t).1) p

/-! ### Event ring (ring.rs `EventRing` + `EventRingIterator`) -/

/-- Model of a decoded event TRB (`TrbE`): its cycle bit plus an abstract payload. -/
structure EventTrb where
  cycleBit : Bool
  payload : Nat
  deriving DecidableEq, Repr

/-- ring.rs `EventRing`: the ring slots (already decoded; `Ring::<TrbE>::get`
unwraps the decode), the consumer cycle state, and the buffer head address
plus `Ring::elem_size` (= `mem::size_of::<TrbE>()`, see `trbEnumSize`). -/
structure EventRing where
  slots : List EventTrb
  cycleBit : Bool
  headAddr : Nat
  elemSize : Nat
  deriving DecidableEq, Repr

/-- ring.rs `EventRing::index_of`, with u64 subtraction modelled as wrapping
arithmetic modulo 2^64 (on a debug build the subtraction itself panics
whenever `addr > head_addr`; either way the function cannot return).
The three assertion failures and the out-of-range index are `none`.
Note the source subtracts `head_addr - addr` right after asserting
`addr > head_addr`. -/
def EventRing.indexOf (er : EventRing) (addr : Nat) : Option Nat :=
  if ¬ er.headAddr < addr then
    none
  else if ¬ addr % er.elemSize = 0 then
    none
  else
    let index := (er.headAddr + 2 ^ 64 - addr % 2 ^ 64) % 2 ^ 64 / er.elemSize
    if index < er.slots.length then some index else none

/-- ring.rs `EventRing::is_unprocessed`: `index_of` then compare the slot's
cycle bit with the consumer cycle state.  `none` models a panic. -/
def EventRing.isUnprocessed (er : EventRing) (pointer : Nat) : Option Bool :=
  (er.indexOf pointer).bind fun index =>
    (er.slots[index]?).map fun trb => trb.cycleBit = er.cycleBit

/-- controller.rs `HostController::has_unprocessed_events`: reads the ERDP
register value and calls `EventRing::is_unprocessed` on it. -/
def hasUnprocessedEvents (er : EventRing) (erdp : Nat) : Option Bool :=
  er.isUnprocessed erdp

/-- The loop of ring.rs `Iterator for EventRingIterator`: while the TRB at the
current index carries the consumer cycle state it is yielded and the index
advances, toggling the cycle state and wrapping to 0 at `last_index`; the
first mismatch ends the iteration.  Returns the yielded TRBs, the event ring
(with its possibly toggled cycle state) and the final index; `none` models a
panic (out-of-bounds read) or fuel exhaustion. -/
def EventRing.consumeLoop (er : EventRing) (index : Nat) (acc : List EventTrb) :
    Nat → Option (List EventTrb × EventRing × Nat)
  | 0 => none
  | fuel + 1 =>
    match er.slots[index]? with
    | none => none
    | some trb =>
      if trb.cycleBit = er.cycleBit then
        if index = er.slots.length - 1 then
          EventRing.consumeLoop { er with cycleBit := ! er.cycleBit } 0 (acc ++ [trb]) fuel
        else
          EventRing.consumeLoop er (index + 1) (acc ++ [trb]) fuel
      else
        some (acc, er, index)

/-- ring.rs `EventRing::consume(start_addr)` iterated to exhaustion:
`EventRingIterator::new` computes the start index as
`(start_addr - head_addr) / 16`, then the iterator runs until the first
cycle-bit mismatch.  (The u64 subtraction underflows for a start address
below the head, modelled as `none`; the fuel is more than the loop can
ever take, see the wrap analysis in `consumeLoop`.) -/
def EventRing.consumeToExhaustion (er : EventRing) (startAddr : Nat) :
    Option (List EventTrb × EventRing × Nat) :=
  if startAddr < er.headAddr then none
  else er.consumeLoop ((startAddr - er.headAddr) / 16) [] (2 * er.slots.length + 1)

/-- ring.rs `EventRingIterator::dequeue_pointer` on an exhausted iterator:
`Ring::addr_at(index)` = head address + index * `elem_size`. -/
def EventRing.dequeuePointerAt (er : EventRing) (index : Nat) : Nat :=
  er.headAddr + index * er.elemSize

/-! ### Device Context Base Address Array (xhci/context.rs) -/

/-- context.rs `DeviceContextBaseAddressArray`: a fixed array of raw pointers
(null = 0), represented as a list of `Nat`. -/
structure DeviceContextBaseAddressArray where
  inner : List Nat
  deriving DecidableEq, Repr

/-- context.rs `DeviceContextBaseAddressArray::new`: asserts
`(1..=255).contains(&capacity)` (panic modelled as `none`), then allocates a
zero-filled array. -/
def DeviceContextBaseAddressArray.new (capacity : Nat) :
    Option DeviceContextBaseAddressArray :=
  if 1 ≤ capacity ∧ capacity ≤ 255 then
    some { inner := List.replicate capacity 0 }
  else none

/-- context.rs `DeviceContextBaseAddressArray::register`: asserts `i > 0`
(panic modelled as `none`), then stores the pointer at index `i`
(an out-of-bounds index panics, also `none`).  There is no check against an
already-occupied entry: an existing pointer is silently overwritten. -/
def DeviceContextBaseAddressArray.register (d : DeviceContextBaseAddressArray)
    (i : Nat) (device : Nat) : Option DeviceContextBaseAddressArray :=
  if i = 0 then none
  else if i < d.inner.length then some { inner := d.inner.set i device }
  else none

/-! ### Errors and the result of `&mut self` methods (usb/error.rs) -/

/-- usb/error.rs `Error` (the variants reached by the modelled code paths). -/
inductive Error where
  | invalidPortPhase
  | invalidCompletionCode (code : Nat)
  | unexpectedCompletionCode (code : Nat)
  | portAlreadyMappedToSlot (portId triedSlot foundSlot : Nat)
  | deviceAlreadyAllocatedForSlot (slot : Nat)
  | deviceNotAllocatedForSlot (slot : Nat)
  | noAddressingPortFoundWhileExpected
  | unexpectedTrbContent (bytes : Nat)
  | transferRingNotAllocatedForDevice
  | invalidTransferLength (len : Nat)
  | trbIssuerMapFull
  | noCorrespondingIssuerTrb (addr : Nat)
  | trbAddressConflicts (addr : Nat)
  deriving DecidableEq, Repr

/-- The outcome of a Rust `&mut self` method returning `Result`:
ok and err both expose the state observable after the call
(an error may have been raised after part of the mutation), and
`div` models a panic (assert!/todo!/unwrap/index out of bounds). -/
inductive Res (α : Type) (σ : Type) where
  | ok (a : α) (s : σ)
  | err (e : Error) (s : σ)
  | div
  deriving DecidableEq, Repr

/-! ### Per-device state (xhci/device.rs `Device`, driver.rs `Driver`) -/

/-- usb/mod.rs `TR_SIZE`: capacity of every transfer ring. -/
def TR_SIZE : Nat := 32

/-- xhci crate `NUM_OF_ENDPOINT_CONTEXTS` (31): length of `Device::transfer_rings`. -/
def NUM_OF_ENDPOINT_CONTEXTS : Nat := 31

/-- usb/mod.rs `NUM_OF_ENDPOINTS` (16): length of the per-endpoint tables. -/
def NUM_OF_ENDPOINTS : Nat := 16

/-- xhci/device.rs `Device`: transfer rings indexed by device context index - 1,
plus the slot-context fields the repository writes into the input context
(root hub port number and speed). -/
structure Device where
  transferRings : List (Option (Producer TrbT))
  rootHubPortNumber : Nat
  speed : Nat
  deriving DecidableEq

/-- xhci/device.rs `Device::new_with_ep0_enabled`: all rings unallocated except
a fresh `TransferRing::new(TR_SIZE)` at device context index EP0 (= 1, stored
at list index 0).  `trHeadAddr` is the address the allocator returned for the
ring buffer. -/
def Device.newWithEp0Enabled (port speed trHeadAddr : Nat) : Device :=
  { transferRings :=
      (List.replicate NUM_OF_ENDPOINT_CONTEXTS (none : Option (Producer TrbT))).set 0
        (some (Producer.fresh TrbT TR_SIZE trHeadAddr trbEnumSize))
  , rootHubPortNumber := port
  , speed := speed }

/-- xhci crate `transfer::TransferType` raw values: NoDataStage = 0,
OutDataStage = 2, InDataStage = 3. -/
def transferTypeNo : Nat := 0

def transferTypeOut : Nat := 2

def transferTypeIn : Nat := 3

/-- xhci/device.rs `Device::control_transfer`.  The endpoint id's bit 0 is the
direction (In = true); `DeviceContextIndex::try_from(id).unwrap()` panics for
id 0 and yields list index id - 1.  With a buffer: buffer length must lie in
1..=65536, then Setup (transfer type per direction), Data (IOC, buffer
pointer/length/TD size 0/direction) and Status (`StatusStage::new()`
untouched) are pushed and the DATA stage TRB's address is returned.
Without a buffer: Setup (transfer type No) and Status (IOC; direction set
when the endpoint direction is In) are pushed and the STATUS stage TRB's
address is returned. -/
def Device.controlTransfer (dev : Device) (id : Nat) (setup : SetupData)
    (buf : Option (Nat × Nat)) : Res Nat Device :=
  if id = 0 then .div
  else
    match dev.transferRings[id - 1]? with
    | none => .div
    | some none => .err .transferRingNotAllocatedForDevice dev
    | some (some tr) =>
      let dirIn : Bool := decide (id % 2 = 1)
      match buf with
      | some (bufPtr, bufLen) =>
        if ¬ (1 ≤ bufLen ∧ bufLen ≤ 65536) then
          .err (.invalidTransferLength bufLen) dev
        else
          let data : DataStage :=
            { dataBufferPointer := bufPtr
            , trbTransferLength := bufLen
            , tdSize := 0
            , directionIn := dirIn
            , interruptOnCompletion := true
            , cycleBit := false }
          let setupTrb : SetupStage :=
            { setup.toSetupStage with
                transferType := if dirIn then transferTypeIn else transferTypeOut }
          let status : StatusStage :=
            { directionIn := false, interruptOnCompletion := false, cycleBit := false }
          let (tr1, _setupAddr) := tr.push (.setupStage setupTrb)
          let (tr2, dataAddr) := tr1.push (.dataStage data)
          let (tr3, _statusAddr) := tr2.push (.statusStage status)
          .ok dataAddr { dev with transferRings := dev.transferRings.set (id - 1) (some tr3) }
      | none =>
        let setupTrb : SetupStage := { setup.toSetupStage with transferType := transferTypeNo }
        let status : StatusStage :=
          { directionIn := dirIn, interruptOnCompletion := true, cycleBit := false }
        let (tr1, _setupAddr) := tr.push (.setupStage setupTrb)
        let (tr2, statusAddr) := tr1.push (.statusStage status)
        .ok statusAddr { dev with transferRings := dev.transferRings.set (id - 1) (some tr2) }

/-- The transfer ring of endpoint 0 (device context index 1, list index 0). -/
def Device.ep0Ring (dev : Device) : Option (Producer TrbT) :=
  (dev.transferRings[0]?).getD none

/-- driver.rs `Issuer`. -/
inductive Issuer where
  | dataStage (d : DataStage)
  | setupStage (s : SetupStage)
  deriving DecidableEq, Repr

/-- driver.rs `Next` (initialization protocol phases). -/
inductive NextStep where
  | getConfigDesc
  | readSetConfig
  | setEndpoint
  deriving DecidableEq, Repr

/-- driver.rs `State`. -/
inductive DriverState where
  | uninvoked
  | initializing (next : NextStep)
  | ready
  deriving DecidableEq, Repr

/-- heapless `LinearMap<u64, Issuer, 16>` insert: replaces the value of an
existing key, appends when there is spare capacity, and fails (full map)
otherwise. -/
def linearMapInsert (m : List (Nat × Issuer)) (k : Nat) (v : Issuer) :
    Option (List (Nat × Issuer)) :=
  if (m.lookup k).isSome then
    some (m.map fun kv => if kv.1 = k then (k, v) else kv)
  else if m.length < 16 then
    some (m ++ [(k, v)])
  else
    none

/-- driver.rs `Driver`: per-slot device state, the initialization state machine,
the issuer map (physical address → in-flight TRB content), the per-endpoint
descriptor buffers (pointer, length) and the recorded configuration counts. -/
structure Driver where
  device : Device
  state : DriverState
  issuers : List (Nat × Issuer)
  descBufs : List (Option (Nat × Nat))
  numConfigurations : List (Option Nat)
  deriving DecidableEq

/-- driver.rs `Driver::new`. -/
def Driver.new (device : Device) : Driver :=
  { device := device
  , state := .uninvoked
  , issuers := []
  , descBufs := List.replicate NUM_OF_ENDPOINTS none
  , numConfigurations := List.replicate NUM_OF_ENDPOINTS none }

/-- driver.rs `Driver::control_transfer`: delegates to
`Device::control_transfer` and records the returned TRB address in the issuer
map with `Issuer::SetupStage(setup.into())` as the value (a full map is
reported as `TrbIssuerMapFull`). -/
def Driver.controlTransfer (drv : Driver) (id : Nat) (setup : SetupData)
    (buf : Option (Nat × Nat)) : Res Unit Driver :=
  match drv.device.controlTransfer id setup buf with
  | .div => .div
  | .err e dev => .err e { drv with device := dev }
  | .ok issuerTrbAddr dev =>
    match linearMapInsert drv.issuers issuerTrbAddr (.setupStage setup.toSetupStage) with
    | none => .err .trbIssuerMapFull { drv with device := dev }
    | some m => .ok () { drv with device := dev, issuers := m }

/-- data_types/descriptor.rs `DeviceDescriptor::SIZE` (18 bytes). -/
def deviceDescriptorSize : Nat := 18

/-- data_types/descriptor.rs `DescriptorType::Device as u8`. -/
def descriptorTypeDevice : Nat := 1

/-- request.rs `RequestType::from((Recipient::Device, Type::Standard, Direction::In))`:
recipient 0 in bits 0..=4, type 0 in bits 5..=6, direction In in bit 7. -/
def requestTypeDeviceStandardIn : Nat := 128

/-- request.rs `RequestCode::GetDescriptor as u8`. -/
def requestCodeGetDescriptor : Nat := 6

/-- driver.rs `EndpointId::as_index`: bits 1..=4 of the raw id. -/
def endpointIdAsIndex (id : Nat) : Nat :=
  id / 2 % 16

/-- driver.rs `Driver::get_descriptor`: builds the `GetDescriptor` SetupData
(device-to-host standard request, value = descriptor type << 8 | descriptor
index, length = buffer length, which must fit in a u16 or `try_into().unwrap()`
panics), runs the control transfer with the buffer, then stores the buffer in
`desc_bufs[id.as_index()]`. -/
def Driver.getDescriptor (drv : Driver) (id : Nat) (descType : Nat) (descIndex : Nat)
    (bufPtr bufLen : Nat) : Res Unit Driver :=
  if 2 ^ 16 ≤ bufLen then .div
  else
    let setup : SetupData :=
      { requestType := requestTypeDeviceStandardIn
      , request := requestCodeGetDescriptor
      , value := descType % 2 ^ 8 * 2 ^ 8 + descIndex % 2 ^ 8
      , index := 0
      , length := bufLen }
    match drv.controlTransfer id setup (some (bufPtr, bufLen)) with
    | .div => .div
    | .err e drv1 => .err e drv1
    | .ok () drv1 =>
      .ok () { drv1 with descBufs := drv1.descBufs.set (endpointIdAsIndex id) (some (bufPtr, bufLen)) }

/-- driver.rs `Driver::get_device_desc`: a `DeviceDescriptor::SIZE`-byte buffer
passed to `get_descriptor(id, DescriptorType::Device, 0, buf)`. -/
def Driver.getDeviceDesc (drv : Driver) (id : Nat) (bufPtr : Nat) : Res Unit Driver :=
  drv.getDescriptor id descriptorTypeDevice 0 bufPtr deviceDescriptorSize

/-! ### DeviceManager (driver.rs) -/

/-- driver.rs `Phase` (per-port configuration phase). -/
inductive Phase where
  | notConnected
  | waitingAddressed
  | resetting
  | enablingSlot
  | addressingDevice
  | initializingDevice
  | configuringEndpoints
  | configured
  deriving DecidableEq, Repr

/-- The PORTSC bits of one port register set that the DeviceManager reads or
writes (xhci crate `PortRegisterSet::portsc`). -/
structure PortReg where
  currentConnectStatus : Bool
  connectStatusChange : Bool
  portReset : Bool
  portResetChange : Bool
  portEnabledDisabled : Bool
  deriving DecidableEq, Repr

/-- Model of xhci::ring::trb::command::Allowed (ring.rs alias TrbC) restricted
to the variants the DeviceManager produces. -/
inductive TrbC where
  | enableSlot
  | addressDevice (inputContextPointer : Nat) (slotId : Nat)
  deriving DecidableEq, Repr

/-- The decoded kind of the command TRB found at a CommandCompletion event's
`command_trb_pointer` (`read_trb::<TrbC>` succeeding). -/
inductive TrbCKind where
  | enableSlot
  | addressDevice
  | configureEndpoint
  | otherCommand
  deriving DecidableEq, Repr

/-- A CommandCompletion event's completion code as matched by
`DeviceManager::command_completion`: `Ok(Success)`, `Ok(other known code)`
or `Err(invalid raw code)`. -/
inductive CompletionCodeR where
  | success
  | known (code : Nat)
  | invalid (code : Nat)
  deriving DecidableEq, Repr

/-- driver.rs `DeviceManager` (the state the modelled methods touch):
the port register sets, the per-port phases, the port currently being
addressed, the port → slot map, the per-slot driver table and the DCBAA. -/
structure DeviceManager where
  portRegs : List PortReg
  portPhases : List Phase
  addressingPort : Option Nat
  portToSlot : List (Option Nat)
  drivers : List (Option Driver)
  dcbaa : DeviceContextBaseAddressArray
  deriving DecidableEq

/-- driver.rs `DeviceManager::set_addressing_port`: asserts the port id is
positive (panic modelled as `none`), then records it. -/
def DeviceManager.setAddressingPort (st : DeviceManager) (portId : Nat) :
    Option DeviceManager :=
  if portId = 0 then none else some { st with addressingPort := some portId }

/-- driver.rs `DeviceManager::port_connected`: PORTSC current connect status
(out-of-range port index panics, modelled as `none`). -/
def DeviceManager.portConnected (st : DeviceManager) (portId : Nat) : Option Bool :=
  (st.portRegs[portId]?).map (·.currentConnectStatus)

/-- driver.rs `DeviceManager::init_port`: when the port reports both a current
connect status and a connect status change, asserts port reset and clears the
connect status change (the subsequent busy-wait loop reads back the reset bit
just written and exits). -/
def DeviceManager.initPort (st : DeviceManager) (portId : Nat) : Option DeviceManager :=
  match st.portRegs[portId]? with
  | none => none
  | some r =>
    if r.currentConnectStatus ∧ r.connectStatusChange then
      some { st with portRegs :=
        st.portRegs.set portId { r with portReset := true, connectStatusChange := false } }
    else some st

/-- driver.rs `DeviceManager::set_port_to_slot`.  Faithful to the source: the
occupancy check reads `port_to_slot[slot_id]` (indexed by the SLOT id), the
driver-table check reads `drivers[slot_id]`, and the successful path writes
`port_to_slot[port_id] = slot_id` without re-reading that entry. -/
def DeviceManager.setPortToSlot (st : DeviceManager) (portId slotId : Nat) :
    Res Unit DeviceManager :=
  match st.portToSlot[slotId]? with
  | none => .div
  | some (some foundSlot) => .err (.portAlreadyMappedToSlot portId slotId foundSlot) st
  | some none =>
    match st.drivers[slotId]? with
    | none => .div
    | some (some _) => .err (.deviceAlreadyAllocatedForSlot slotId) st
    | some none =>
      if portId < st.portToSlot.length then
        .ok () { st with portToSlot := st.portToSlot.set portId (some slotId) }
      else .div

/-- driver.rs `DeviceManager::reset_port`.  Faithful to the source: when the
port is not connected it returns Ok.  Otherwise the source runs
`if let Some(port_id) = self.addressing_port.read_volatile()`, SHADOWING the
`port_id` argument with the currently-addressed port: with an addressing port
present, that port's phase is inspected and (for NotConnected /
WaitingAddressed) that port — not the event's port — is re-recorded, moved to
Resetting and reset, any other phase being `InvalidPortPhase`; with NO
addressing port recorded the method does nothing and returns Ok. -/
def DeviceManager.resetPort (st : DeviceManager) (portId : Nat) :
    Res Unit DeviceManager :=
  match st.portConnected portId with
  | none => .div
  | some false => .ok () st
  | some true =>
    match st.addressingPort with
    | some addressingPortId =>
      match st.portPhases[addressingPortId]? with
      | none => .div
      | some ph =>
        if ph = .notConnected ∨ ph = .waitingAddressed then
          match st.setAddressingPort addressingPortId with
          | none => .div
          | some st1 =>
            let st2 :=
              { st1 with portPhases := st1.portPhases.set addressingPortId .resetting }
            match st2.initPort addressingPortId with
            | none => .div
            | some st3 => .ok () st3
        else .err .invalidPortPhase st
    | none => .ok () st

/-- driver.rs `DeviceManager::enable_slot`: when the port is enabled and has a
pending port reset change, clears the change bit, moves the port to
EnablingSlot and returns an EnableSlot command TRB; otherwise no TRB. -/
def DeviceManager.enableSlot (st : DeviceManager) (portId : Nat) :
    Res (Option TrbC) DeviceManager :=
  match st.portRegs[portId]? with
  | none => .div
  | some r =>
    if r.portEnabledDisabled ∧ r.portResetChange then
      if portId < st.portPhases.length then
        .ok (some .enableSlot)
          { st with
              portRegs := st.portRegs.set portId { r with portResetChange := false }
            , portPhases := st.portPhases.set portId .enablingSlot }
      else .div
    else .ok none st

/-- The values `DeviceManager::address_device` obtains from hardware and the
allocator: the negotiated port speed (`get_port_speed`), the leaked device-
and input-context pointers and the address of the new EP0 transfer ring
buffer. -/
structure AddressDeviceHw where
  portSpeed : Nat
  devCtxPtr : Nat
  inpCtxPtr : Nat
  trHeadAddr : Nat
  deriving DecidableEq, Repr

/-- driver.rs `DeviceManager::address_device`: maps the port to the slot
(`set_port_to_slot?`), moves the port to AddressingDevice, builds the device
and input contexts (root hub port number and speed into the slot context),
creates the per-slot Driver with EP0 enabled, registers the device context in
the DCBAA and the driver in the slot table, and returns an AddressDevice
command TRB referencing the input context. -/
def DeviceManager.addressDevice (st : DeviceManager) (hw : AddressDeviceHw)
    (portId slotId : Nat) : Res TrbC DeviceManager :=
  match st.setPortToSlot portId slotId with
  | .div => .div
  | .err e st1 => .err e st1
  | .ok () st1 =>
    if portId < st1.portPhases.length then
      let st2 := { st1 with portPhases := st1.portPhases.set portId .addressingDevice }
      let driver := Driver.new (Device.newWithEp0Enabled portId hw.portSpeed hw.trHeadAddr)
      match st2.dcbaa.register slotId hw.devCtxPtr with
      | none => .div
      | some dcbaa1 =>
        if slotId < st2.drivers.length then
          .ok (.addressDevice hw.inpCtxPtr slotId)
            { st2 with dcbaa := dcbaa1, drivers := st2.drivers.set slotId (some driver) }
        else .div
    else .div

/-- driver.rs `DeviceManager::command_completion`: rejects non-Success
completion codes, requires an addressing port (`NoAddressingPortFoundWhileExpected`
otherwise; its usize → u8 conversion unwraps), reads that port's phase, then
matches the command TRB decoded from the event's pointer against the phase:
(EnableSlot, EnablingSlot) runs `address_device`; (AddressDevice,
AddressingDevice) and (ConfigureEndpoint, ConfiguringEndpoints) hit `todo!()`
(modelled as `.div`); every other combination is `InvalidPortPhase`. -/
def DeviceManager.commandCompletion (st : DeviceManager) (hw : AddressDeviceHw)
    (code : CompletionCodeR) (slotId : Nat) (decoded : Except Nat TrbCKind) :
    Res (Option TrbC) DeviceManager :=
  match code with
  | .known c => .err (.unexpectedCompletionCode c) st
  | .invalid c => .err (.invalidCompletionCode c) st
  | .success =>
    match st.addressingPort with
    | none => .err .noAddressingPortFoundWhileExpected st
    | some portId =>
      if 255 < portId then .div
      else
        match st.portPhases[portId]? with
        | none => .div
        | some phase =>
          match decoded, phase with
          | .error bytes, _ => .err (.unexpectedTrbContent bytes) st
          | .ok .enableSlot, .enablingSlot =>
            match st.addressDevice hw portId slotId with
            | .div => .div
            | .err e st1 => .err e st1
            | .ok cmd st1 => .ok (some cmd) st1
          | .ok .addressDevice, .addressingDevice => .div
          | .ok .configureEndpoint, .configuringEndpoints => .div
          | _, _ => .err .invalidPortPhase st

/-- driver.rs `DeviceManager::port_status_change`: dispatches on the event
port's phase — NotConnected runs `reset_port`, Resetting runs `enable_slot`,
anything else is `InvalidPortPhase`. -/
def DeviceManager.portStatusChange (st : DeviceManager) (portId : Nat) :
    Res (Option TrbC) DeviceManager :=
  match st.portPhases[portId]? with
  | none => .div
  | some .notConnected =>
    match st.resetPort portId with
    | .div => .div
    | .err e st1 => .err e st1
    | .ok () st1 => .ok none st1
  | some .resetting => st.enableSlot portId
  | some _ => .err .invalidPortPhase st

/-- The pair (decoded command kind, port phase) combinations for which
`command_completion` has a matching arm (everything else falls through to
`InvalidPortPhase`). -/
def cmdPhaseMatches (k : TrbCKind) (ph : Phase) : Bool :=
  match k, ph with
  | .enableSlot, .enablingSlot => true
  | .addressDevice, .addressingDevice => true
  | .configureEndpoint, .configuringEndpoints => true
  | _, _ => false

/-! ### Helper lemmas about `Producer.push` -/

/-- `push` never touches the producer cycle state, in either branch. -/
theorem Producer.push_cycleBit {Trb : Type} [SoftwareProduceTrb Trb]
    (p : Producer Trb) (t : Trb) : (p.push t).1.cycleBit = p.cycleBit := by
  unfold Producer.push
  dsimp only
  split <;> rfl

/-- No sequence of pushes touches the producer cycle state. -/
theorem Producer.pushAll_cycleBit {Trb : Type} [SoftwareProduceTrb Trb]
    (p : Producer Trb) (trbs : List Trb) : (p.pushAll trbs).cycleBit = p.cycleBit := by
  induction trbs generalizing p with
  | nil => rfl
  | cons t rest ih =>
    show ((p.push t).1.pushAll rest).cycleBit = p.cycleBit
    rw [ih, Producer.push_cycleBit]

/-- Unfolding a sequence of pushes one step. -/
theorem Producer.pushAll_cons {Trb : Type} [SoftwareProduceTrb Trb]
    (p : Producer Trb) (t : Trb) (rest : List Trb) :
    p.pushAll (t :: rest) = (p.push t).1.pushAll rest := rfl

/-- The non-wrapping branch of `push` spelled out. -/
theorem Producer.push_no_wrap {Trb : Type} [SoftwareProduceTrb Trb]
    (p : Producer Trb) (t : Trb) (h : ¬ p.writeIndex + 1 = p.slots.length - 1) :
    p.push t =
      ({ p with
          slots := p.slots.set p.writeIndex
            (some (SoftwareProduceTrb.setCycleBit t p.cycleBit))
        , writeIndex := p.writeIndex + 1 }, p.headAddr + p.writeIndex * p.elemSize) := by
  unfold Producer.push
  simp [h, Producer.addrAt]

/-- The wrapping branch of `push` spelled out. -/
theorem Producer.push_wrap {Trb : Type} [SoftwareProduceTrb Trb]
    (p : Producer Trb) (t : Trb) (h : p.writeIndex + 1 = p.slots.length - 1) :
    p.push t =
      ({ p with
          slots := (p.slots.set p.writeIndex
              (some (SoftwareProduceTrb.setCycleBit t p.cycleBit))).set
            (p.writeIndex + 1) (some SoftwareProduceTrb.linkTrb)
        , writeIndex := 0 }, p.headAddr + p.writeIndex * p.elemSize) := by
  unfold Producer.push
  simp [h, Producer.addrAt]

/-- Behavior of a push sequence that stays strictly below the link slot:
the cursor advances by one per push, each pushed TRB lands (cycle-stamped) in
consecutive slots, and every other slot is untouched. -/
theorem Producer.pushAll_no_wrap {Trb : Type} [SoftwareProduceTrb Trb]
    (trbs : List Trb) (p : Producer Trb)
    (h : p.writeIndex + trbs.length + 1 < p.slots.length) :
    (p.pushAll trbs).slots.length = p.slots.length ∧
    (p.pushAll trbs).writeIndex = p.writeIndex + trbs.length ∧
    (p.pushAll trbs).cycleBit = p.cycleBit ∧
    (p.pushAll trbs).headAddr = p.headAddr ∧
    (p.pushAll trbs).elemSize = p.elemSize ∧
    (∀ i tr, trbs[i]? = some tr →
      (p.pushAll trbs).slots[p.writeIndex + i]? =
        some (some (SoftwareProduceTrb.setCycleBit tr p.cycleBit))) ∧
    (∀ j, j < p.writeIndex ∨ p.writeIndex + trbs.length ≤ j →
      (p.pushAll trbs).slots[j]? = p.slots[j]?) := by
  induction trbs generalizing p with
  | nil =>
    refine ⟨rfl, by simp [Producer.pushAll], rfl, rfl, rfl, ?_, fun j _ => rfl⟩
    intro i tr hi
    simp at hi
  | cons t rest ih =>
    have hlen : t :: rest ≠ [] := by simp
    have hne : ¬ p.writeIndex + 1 = p.slots.length - 1 := by
      simp only [List.length_cons] at h
      omega
    have hwlt : p.writeIndex < p.slots.length := by
      simp only [List.length_cons] at h
      omega
    have hpush := Producer.push_no_wrap p t hne
    have hstep := Producer.pushAll_cons p t rest
    set p1 : Producer Trb :=
      { p with
          slots := p.slots.set p.writeIndex
            (some (SoftwareProduceTrb.setCycleBit t p.cycleBit))
        , writeIndex := p.writeIndex + 1 } with hp1
    have hp1eq : (p.push t).1 = p1 := by rw [hpush]
    have h1 : p1.writeIndex + rest.length + 1 < p1.slots.length := by
      simp only [hp1, List.length_set]
      simp only [List.length_cons] at h
      omega
    obtain ⟨ihlen, ihwi, ihcb, ihha, ihes, ihset, ihold⟩ := ih p1 h1
    rw [hstep, hp1eq]
    have hlen1 : p1.slots.length = p.slots.length := by
      simp [hp1, List.length_set]
    refine ⟨by rw [ihlen, hlen1], ?_, ihcb, ihha, ihes, ?_, ?_⟩
    · rw [ihwi]
      simp [hp1, List.length_cons]
      omega
    · intro i tr hi
      match i with
      | 0 =>
        simp only [List.getElem?_cons_zero] at hi
        cases hi
        have : p.writeIndex + 0 = p1.writeIndex - 1 := by simp [hp1]
        have hj : p.writeIndex < p1.writeIndex := by simp [hp1]
        have := ihold (p.writeIndex) (Or.inl (by simp [hp1]))
        rw [Nat.add_zero, this]
        simp only [hp1]
        exact List.getElem?_set_self hwlt
      | i + 1 =>
        simp only [List.getElem?_cons_succ] at hi
        have := ihset i tr hi
        have harith : p1.writeIndex + i = p.writeIndex + (i + 1) := by
          simp [hp1]
          omega
        rw [harith] at this
        rw [this]
    · intro j hj
      have hj1 : j < p1.writeIndex ∨ p1.writeIndex + rest.length ≤ j := by
        simp only [hp1]
        simp only [List.length_cons] at hj
        omega
      have hjw : ¬ p.writeIndex = j := by
        simp only [List.length_cons] at hj
        omega
      rw [ihold j hj1]
      simp only [hp1]
      exact List.getElem?_set_ne hjw

/-- Is a transfer TRB the Link variant? -/
def TrbT.isLink : TrbT → Bool
  | .link _ => true
  | _ => false

/-- A dummy TRB used in concrete ring scenarios. -/
def dummyStatusTrb : TrbT :=
  .statusStage { directionIn := false, interruptOnCompletion := false, cycleBit := false }

/-- Claim C4 (amended): for a fresh Producer ring of capacity C >= 2, the first
C-2 pushes write the cycle-stamped TRBs into slots 0..C-2 and leave the last
slot untouched with the cursor at C-2; the (C-1)-th push writes its TRB at
slot C-2, writes the automatically inserted Link TRB at slot C-1 (the LAST
slot, not slot C-2 as the claim stated), resets the cursor to 0, and returns
the pushed TRB's address exactly like every other push. -/
theorem c4_ring_wrap (C headAddr : Nat) (hC : 2 ≤ C) (trbs : List TrbT)
    (hlen : trbs.length = C - 2) (t : TrbT) :
    (∀ (i : Nat) (tr : TrbT), trbs[i]? = some tr →
      ((Producer.fresh TrbT C headAddr trbEnumSize).pushAll trbs).slots[i]? =
        some (some (SoftwareProduceTrb.setCycleBit tr true))) ∧
    ((Producer.fresh TrbT C headAddr trbEnumSize).pushAll trbs).writeIndex = C - 2 ∧
    ((Producer.fresh TrbT C headAddr trbEnumSize).pushAll trbs).slots[C - 1]? = some none ∧
    (((Producer.fresh TrbT C headAddr trbEnumSize).pushAll trbs).push t).2 =
      headAddr + (C - 2) * trbEnumSize ∧
    (((Producer.fresh TrbT C headAddr trbEnumSize).pushAll trbs).push t).1.slots[C - 2]? =
      some (some (SoftwareProduceTrb.setCycleBit t true)) ∧
    (((Producer.fresh TrbT C headAddr trbEnumSize).pushAll trbs).push t).1.slots[C - 1]? =
      some (some ((SoftwareProduceTrb.linkTrb : TrbT))) ∧
    (((Producer.fresh TrbT C headAddr trbEnumSize).pushAll trbs).push t).1.writeIndex = 0 := by
  set p0 : Producer TrbT := Producer.fresh TrbT C headAddr trbEnumSize with hp0
  have hp0len : p0.slots.length = C := by simp [hp0, Producer.fresh]
  have h : p0.writeIndex + trbs.length + 1 < p0.slots.length := by
    simp only [hp0, Producer.fresh, List.length_replicate]
    omega
  obtain ⟨hlen1, hwi, hcb, hha, hes, hset, hold⟩ := Producer.pushAll_no_wrap trbs p0 h
  set p1 : Producer TrbT := p0.pushAll trbs with hp1
  have hwi1 : p1.writeIndex = C - 2 := by
    rw [hwi]
    simp [hp0, Producer.fresh, hlen]
  have hlast : p1.slots[C - 1]? = some none := by
    rw [hold (C - 1) (Or.inr (by simp [hp0, Producer.fresh]; omega))]
    simp [hp0, Producer.fresh, List.getElem?_replicate]
    omega
  have hwrap : p1.writeIndex + 1 = p1.slots.length - 1 := by
    rw [hwi1, hlen1, hp0len]
    omega
  have hpush := Producer.push_wrap p1 t hwrap
  have hwlt : p1.writeIndex < p1.slots.length := by
    rw [hwi1, hlen1, hp0len]
    omega
  refine ⟨?_, hwi1, hlast, ?_, ?_, ?_, ?_⟩
  · intro i tr hi
    have := hset i tr hi
    simpa [hp0, Producer.fresh] using this
  · rw [hpush]
    rw [hha, hes, hwi1]
    simp [hp0, Producer.fresh]
  · rw [hpush]
    dsimp only
    rw [← hwi1]
    have hne : ¬ p1.writeIndex + 1 = p1.writeIndex := by omega
    rw [List.getElem?_set_ne hne]
    have := List.getElem?_set_self (a := some (SoftwareProduceTrb.setCycleBit t p1.cycleBit))
      hwlt
    rw [this]
    rw [hcb]
    simp [hp0, Producer.fresh]
  · rw [hpush]
    dsimp only
    have hC1 : C - 1 = p1.writeIndex + 1 := by
      rw [hwi1]
      omega
    rw [hC1]
    have hlt : p1.writeIndex + 1 < (p1.slots.set p1.writeIndex
        (some (SoftwareProduceTrb.setCycleBit t p1.cycleBit))).length := by
      rw [List.length_set]
      omega
    exact List.getElem?_set_self hlt
  · rw [hpush]

/-- Claim C4 witness instantiation. -/
theorem c4_ring_wrap_witness :
    (∀ (i : Nat) (tr : TrbT), [dummyStatusTrb, dummyStatusTrb][i]? = some tr →
      ((Producer.fresh TrbT 4 0 trbEnumSize).pushAll
          [dummyStatusTrb, dummyStatusTrb]).slots[i]? =
        some (some (SoftwareProduceTrb.setCycleBit tr true))) ∧
    ((Producer.fresh TrbT 4 0 trbEnumSize).pushAll
        [dummyStatusTrb, dummyStatusTrb]).writeIndex = 4 - 2 ∧
    ((Producer.fresh TrbT 4 0 trbEnumSize).pushAll
        [dummyStatusTrb, dummyStatusTrb]).slots[4 - 1]? = some none ∧
    (((Producer.fresh TrbT 4 0 trbEnumSize).pushAll
        [dummyStatusTrb, dummyStatusTrb]).push dummyStatusTrb).2 =
      0 + (4 - 2) * trbEnumSize ∧
    (((Producer.fresh TrbT 4 0 trbEnumSize).pushAll
        [dummyStatusTrb, dummyStatusTrb]).push dummyStatusTrb).1.slots[4 - 2]? =
      some (some (SoftwareProduceTrb.setCycleBit dummyStatusTrb true)) ∧
    (((Producer.fresh TrbT 4 0 trbEnumSize).pushAll
        [dummyStatusTrb, dummyStatusTrb]).push dummyStatusTrb).1.slots[4 - 1]? =
      some (some ((SoftwareProduceTrb.linkTrb : TrbT))) ∧
    (((Producer.fresh TrbT 4 0 trbEnumSize).pushAll
        [dummyStatusTrb, dummyStatusTrb]).push dummyStatusTrb).1.writeIndex = 0 :=
  c4_ring_wrap 4 0 (by decide) [dummyStatusTrb, dummyStatusTrb] (by decide) dummyStatusTrb

/-- Claim C4 counterexample: on a fresh ring of capacity C = 4, after the
(C-1)-th = 3rd push, slot C-2 = 2 holds the pushed (cycle-stamped) TRB, not a
Link TRB; the automatically inserted Link TRB is at slot C-1 = 3.  This
falsifies the claim's placement of the Link TRB at slot C-2. -/
theorem c4_link_not_at_slot_c_minus_2 :
    ((Producer.fresh TrbT 4 0 trbEnumSize).pushAll
        [dummyStatusTrb, dummyStatusTrb, dummyStatusTrb]).slots[2]? =
      some (some (TrbT.statusStage
        { directionIn := false, interruptOnCompletion := false, cycleBit := true })) ∧
    (((Producer.fresh TrbT 4 0 trbEnumSize).pushAll
        [dummyStatusTrb, dummyStatusTrb, dummyStatusTrb]).slots[2]?).map
      (Option.map TrbT.isLink) = some (some false) ∧
    ((Producer.fresh TrbT 4 0 trbEnumSize).pushAll
        [dummyStatusTrb, dummyStatusTrb, dummyStatusTrb]).slots[3]? =
      some (some (TrbT.link linkTrbWithToggle)) ∧
    ((Producer.fresh TrbT 4 0 trbEnumSize).pushAll
        [dummyStatusTrb, dummyStatusTrb, dummyStatusTrb]).writeIndex = 0 := by
  decide

/-- Claim C5: the automatically inserted Link TRB does occupy the last slot and
has its toggle-cycle flag set, but its ring segment pointer is the
`Link::new()` default 0 — `link_trb_with_toggle` never calls
`set_ring_segment_pointer`, so the Link TRB does NOT point back to the ring's
head (slot 0) address.  Evaluated on a fresh transfer ring at head address
4096 after the wrapping (3rd of capacity 4) push. -/
theorem c5_link_trb_pointer_not_head :
    ((Producer.fresh TrbT 4 4096 trbEnumSize).pushAll
        [dummyStatusTrb, dummyStatusTrb, dummyStatusTrb]).slots[3]? =
      some (some (TrbT.link linkTrbWithToggle)) ∧
    linkTrbWithToggle.toggleCycle = true ∧
    linkTrbWithToggle.ringSegmentPointer = 0 ∧
    (Producer.fresh TrbT 4 4096 trbEnumSize).headAddr = 4096 ∧
    ¬ linkTrbWithToggle.ringSegmentPointer =
        (Producer.fresh TrbT 4 4096 trbEnumSize).headAddr := by
  decide

/-- Claim C10: the producer cycle state is invariantly true — `new` initializes
it to true, no sequence of pushes (wrapping or not) changes it, and on a
wrapping push the Link TRB is written as `Trb::link_trb()` itself with cycle
bit false (the producer cycle state is not stamped into it), while the
ordinary pushed TRB of the same call is stamped with the producer cycle
state. -/
theorem c10_producer_cycle_state_invariant (capacity headAddr : Nat)
    (trbs : List TrbT) (p : Producer TrbT) (t : TrbT)
    (hwrap : p.writeIndex + 1 = p.slots.length - 1) :
    (Producer.fresh TrbT capacity headAddr trbEnumSize).cycleBit = true ∧
    ((Producer.fresh TrbT capacity headAddr trbEnumSize).pushAll trbs).cycleBit = true ∧
    (p.push t).1.cycleBit = p.cycleBit ∧
    (p.push t).1.slots[p.slots.length - 1]? =
      some (some (TrbT.link linkTrbWithToggle)) ∧
    linkTrbWithToggle.cycleBit = false ∧
    (p.push t).1.slots[p.writeIndex]? =
      some (some (SoftwareProduceTrb.setCycleBit t p.cycleBit)) := by
  have hlen : p.writeIndex + 2 ≤ p.slots.length := by omega
  have hpush := Producer.push_wrap p t hwrap
  refine ⟨rfl, ?_, Producer.push_cycleBit p t, ?_, rfl, ?_⟩
  · rw [Producer.pushAll_cycleBit]
    rfl
  · rw [hpush]
    dsimp only
    rw [← hwrap]
    have hlt : p.writeIndex + 1 < (p.slots.set p.writeIndex
        (some (SoftwareProduceTrb.setCycleBit t p.cycleBit))).length := by
      rw [List.length_set]
      omega
    exact List.getElem?_set_self hlt
  · rw [hpush]
    dsimp only
    have hne : ¬ p.writeIndex + 1 = p.writeIndex := by omega
    rw [List.getElem?_set_ne hne]
    exact List.getElem?_set_self (by omega)

/-- Claim C10 witness instantiation: a fresh ring of capacity 4 after two
pushes is one push away from wrapping. -/
theorem c10_producer_cycle_state_invariant_witness :
    (Producer.fresh TrbT 4 0 trbEnumSize).cycleBit = true ∧
    ((Producer.fresh TrbT 4 0 trbEnumSize).pushAll [dummyStatusTrb]).cycleBit = true ∧
    (((Producer.fresh TrbT 4 0 trbEnumSize).pushAll
        [dummyStatusTrb, dummyStatusTrb]).push dummyStatusTrb).1.cycleBit =
      ((Producer.fresh TrbT 4 0 trbEnumSize).pushAll
        [dummyStatusTrb, dummyStatusTrb]).cycleBit ∧
    (((Producer.fresh TrbT 4 0 trbEnumSize).pushAll
        [dummyStatusTrb, dummyStatusTrb]).push dummyStatusTrb).1.slots[
      ((Producer.fresh TrbT 4 0 trbEnumSize).pushAll
        [dummyStatusTrb, dummyStatusTrb]).slots.length - 1]? =
      some (some (TrbT.link linkTrbWithToggle)) ∧
    linkTrbWithToggle.cycleBit = false ∧
    (((Producer.fresh TrbT 4 0 trbEnumSize).pushAll
        [dummyStatusTrb, dummyStatusTrb]).push dummyStatusTrb).1.slots[
      ((Producer.fresh TrbT 4 0 trbEnumSize).pushAll
        [dummyStatusTrb, dummyStatusTrb]).writeIndex]? =
      some (some (SoftwareProduceTrb.setCycleBit dummyStatusTrb
        ((Producer.fresh TrbT 4 0 trbEnumSize).pushAll
          [dummyStatusTrb, dummyStatusTrb]).cycleBit)) :=
  c10_producer_cycle_state_invariant 4 0 [dummyStatusTrb]
    ((Producer.fresh TrbT 4 0 trbEnumSize).pushAll [dummyStatusTrb, dummyStatusTrb])
    dummyStatusTrb (by decide)

/-! ### Concrete DeviceManager scenarios -/

/-- A port register with no status bits set. -/
def portRegDefault : PortReg :=
  { currentConnectStatus := false
  , connectStatusChange := false
  , portReset := false
  , portResetChange := false
  , portEnabledDisabled := false }

/-- A fresh DeviceManager (all ports NotConnected, no addressing port, empty
port→slot map, no drivers) where port 1 has just connected: PORTSC reports
current connect status and connect status change. -/
def dmFreshConnected : DeviceManager :=
  { portRegs := [portRegDefault,
      { currentConnectStatus := true
      , connectStatusChange := true
      , portReset := false
      , portResetChange := false
      , portEnabledDisabled := false },
      portRegDefault, portRegDefault]
  , portPhases := List.replicate 4 .notConnected
  , addressingPort := none
  , portToSlot := List.replicate 4 none
  , drivers := List.replicate 3 none
  , dcbaa := { inner := List.replicate 3 0 } }

/-- Claim C2: evaluating the code at the failing input.  On a fresh
DeviceManager with no port mid-address (`addressing_port = None`) and port 1
newly connected in phase NotConnected, `port_status_change` /`reset_port`
return Ok and change NOTHING: the port is not recorded as the addressing
port, no port reset is asserted, and the phase stays NotConnected — because
`reset_port` only acts inside `if let Some(port_id) = self.addressing_port`,
which shadows the event's port with the (absent) addressing port. -/
theorem c2_reset_port_ignores_fresh_connection :
    dmFreshConnected.portStatusChange 1 = .ok none dmFreshConnected ∧
    dmFreshConnected.resetPort 1 = .ok () dmFreshConnected ∧
    dmFreshConnected.portPhases[1]? = some .notConnected ∧
    dmFreshConnected.addressingPort = none ∧
    (dmFreshConnected.portRegs[1]?).map (fun r => r.portReset) = some false := by
  decide

/-- A DeviceManager in which port 3 is already mapped to slot 5 and no drivers
are registered. -/
def dmPort3Slot5 : DeviceManager :=
  { portRegs := List.replicate 8 portRegDefault
  , portPhases := List.replicate 8 .notConnected
  , addressingPort := none
  , portToSlot := [none, none, none, some 5, none, none, none, none]
  , drivers := List.replicate 10 none
  , dcbaa := { inner := List.replicate 10 0 } }

/-- Claim C3: evaluating the code at the failing input.  With port 3 already
mapped to slot 5, `set_port_to_slot(3, 6)` SUCCEEDS and silently overwrites
the existing mapping (port 3 ↦ slot 6), and `set_port_to_slot(4, 5)` also
SUCCEEDS, leaving two ports (3 and 4) mapped to the same slot 5 — the
occupancy check reads `port_to_slot[slot_id]` instead of
`port_to_slot[port_id]`, so neither collision is detected. -/
theorem c3_port_to_slot_overwrite_and_collision :
    dmPort3Slot5.setPortToSlot 3 6 =
      .ok () { dmPort3Slot5 with
        portToSlot := [none, none, none, some 6, none, none, none, none] } ∧
    dmPort3Slot5.setPortToSlot 4 5 =
      .ok () { dmPort3Slot5 with
        portToSlot := [none, none, none, some 5, some 5, none, none, none] } := by
  decide

/-! ### Event ring claims -/

/-- An event ring of 8 slots at head address 4096 with 5 unconsumed events
(cycle bit matching the consumer cycle state) followed by stale entries. -/
def erFive : EventRing :=
  { slots := [⟨true, 1⟩, ⟨true, 2⟩, ⟨true, 3⟩, ⟨true, 4⟩, ⟨true, 5⟩,
      ⟨false, 0⟩, ⟨false, 0⟩, ⟨false, 0⟩]
  , cycleBit := true
  , headAddr := 4096
  , elemSize := trbEnumSize }

/-- Claim C7: evaluating the code at the failing input.  Consuming `erFive`
from its head address yields the 5 events and stops at index 5, but
`dequeue_pointer` computes 4096 + 5 * 20 = 4196 (`Ring::addr_at` scales by
`mem::size_of::<TrbE>()` = 20), while `consume(4196)` maps the address back
to index (4196 - 4096) / 16 = 6.  The second consume does yield the empty
sequence, but its dequeue pointer is 4096 + 6 * 20 = 4216 ≠ 4196, falsifying
"the same dequeue pointer". -/
theorem c7_consume_dequeue_pointer_drifts :
    erFive.consumeToExhaustion 4096 =
      some ([⟨true, 1⟩, ⟨true, 2⟩, ⟨true, 3⟩, ⟨true, 4⟩, ⟨true, 5⟩], erFive, 5) ∧
    erFive.dequeuePointerAt 5 = 4196 ∧
    erFive.consumeToExhaustion 4196 = some ([], erFive, 6) ∧
    erFive.dequeuePointerAt 6 = 4216 ∧
    ¬ (4216 : Nat) = 4196 := by
  decide

/-- Claim C9: `EventRing::index_of` never returns normally, hence neither does
`is_unprocessed` nor `HostController::has_unprocessed_events`.  For any
address not above the head the first assertion `addr > head_addr` fails; for
any address above the head the computation `head_addr - addr` underflows (on
a release build it wraps modulo 2^64, and the wrapped index then fails the
bounds assertion; on a debug build the subtraction itself panics).  The
hypotheses say the addresses are u64 values, the element size is positive
and the ring lives above the first `elem_size * len` bytes of the address
space (true of any real allocation, the null page being unmapped). -/
theorem c9_index_of_never_returns (er : EventRing) (addr : Nat)
    (haddr : addr < 2 ^ 64) (hhead : er.headAddr < 2 ^ 64)
    (he : 0 < er.elemSize) (hfit : er.elemSize * er.slots.length ≤ er.headAddr) :
    er.indexOf addr = none ∧
    er.isUnprocessed addr = none ∧
    hasUnprocessedEvents er addr = none := by
  have hmain : er.indexOf addr = none := by
    unfold EventRing.indexOf
    by_cases h1 : er.headAddr < addr
    · rw [if_neg (by simpa using h1)]
      by_cases h2 : addr % er.elemSize = 0
      · rw [if_neg (by simpa using h2)]
        have hmod : addr % 2 ^ 64 = addr := Nat.mod_eq_of_lt haddr
        have hsub : er.headAddr + 2 ^ 64 - addr % 2 ^ 64 = 2 ^ 64 - (addr - er.headAddr) := by
          rw [hmod]
          omega
        have hsubmod : (2 ^ 64 - (addr - er.headAddr)) % 2 ^ 64 =
            2 ^ 64 - (addr - er.headAddr) := by
          apply Nat.mod_eq_of_lt
          omega
        rw [hsub, hsubmod]
        have hge : er.slots.length ≤ (2 ^ 64 - (addr - er.headAddr)) / er.elemSize := by
          rw [Nat.le_div_iff_mul_le he]
          have : er.slots.length * er.elemSize ≤ er.headAddr := by
            rw [Nat.mul_comm]
            exact hfit
          omega
        rw [if_neg (by omega)]
      · rw [if_pos (by simpa using h2)]
    · rw [if_pos (by simpa using h1)]
  refine ⟨hmain, ?_, ?_⟩
  · unfold EventRing.isUnprocessed
    rw [hmain]
    rfl
  · unfold hasUnprocessedEvents EventRing.isUnprocessed
    rw [hmain]
    rfl

/-- Claim C9 witness instantiation: a 32-slot event ring at head address 4096
with element size 20, probed at address 8192. -/
theorem c9_index_of_never_returns_witness :
    ({ slots := List.replicate 32 ⟨false, 0⟩
     , cycleBit := true, headAddr := 4096, elemSize := trbEnumSize } :
        EventRing).indexOf 8192 = none ∧
    ({ slots := List.replicate 32 ⟨false, 0⟩
     , cycleBit := true, headAddr := 4096, elemSize := trbEnumSize } :
        EventRing).isUnprocessed 8192 = none ∧
    hasUnprocessedEvents
      { slots := List.replicate 32 ⟨false, 0⟩
      , cycleBit := true, headAddr := 4096, elemSize := trbEnumSize } 8192 = none :=
  c9_index_of_never_returns _ 8192 (by norm_num) (by norm_num)
    (by simp [trbEnumSize]) (by simp [trbEnumSize])

/-! ### Claim C6: phase-mismatched events are rejected without mutation -/

/-- Claim C6: whenever `command_completion` receives a successfully decoded
command TRB whose kind does not match what the addressed port's current
phase expects, and whenever `port_status_change` hits a port whose phase is
neither NotConnected nor Resetting, the dispatcher returns `InvalidPortPhase`
with the DeviceManager state (port phases, addressing port, port→slot map,
driver table, DCBAA) completely unchanged. -/
theorem c6_phase_mismatch_rejected_unchanged (st st2 : DeviceManager)
    (hw : AddressDeviceHw) (slotId portId p2 : Nat) (k : TrbCKind) (ph ph2 : Phase)
    (hap : st.addressingPort = some portId) (hple : portId ≤ 255)
    (hph : st.portPhases[portId]? = some ph)
    (hmm : cmdPhaseMatches k ph = false)
    (hph2 : st2.portPhases[p2]? = some ph2)
    (hn2 : ¬ ph2 = .notConnected) (hr2 : ¬ ph2 = .resetting) :
    st.commandCompletion hw .success slotId (.ok k) = .err .invalidPortPhase st ∧
    st2.portStatusChange p2 = .err .invalidPortPhase st2 := by
  constructor
  · unfold DeviceManager.commandCompletion
    rw [hap]
    dsimp only
    rw [if_neg (by omega : ¬ 255 < portId)]
    rw [hph]
    cases k <;> cases ph <;> simp_all [cmdPhaseMatches]
  · unfold DeviceManager.portStatusChange
    rw [hph2]
    cases ph2 <;> simp_all

/-- A DeviceManager addressing port 1 (phase NotConnected) with port 2 in
phase Configured. -/
def dmMismatch : DeviceManager :=
  { portRegs := List.replicate 4 portRegDefault
  , portPhases := [.notConnected, .notConnected, .configured, .notConnected]
  , addressingPort := some 1
  , portToSlot := List.replicate 4 none
  , drivers := List.replicate 3 none
  , dcbaa := { inner := List.replicate 3 0 } }

/-- Placeholder hardware inputs for `address_device` (never reached on the
mismatch paths). -/
def hwDefault : AddressDeviceHw :=
  { portSpeed := 8, devCtxPtr := 16384, inpCtxPtr := 20480, trHeadAddr := 24576 }

/-- Claim C6 witness instantiation: a CommandCompletion decoding to EnableSlot
while the addressed port is in NotConnected yields InvalidPortPhase and the
state — in particular that port's phase — is unchanged. -/
theorem c6_phase_mismatch_rejected_unchanged_witness :
    dmMismatch.commandCompletion hwDefault .success 5 (.ok .enableSlot) =
      .err .invalidPortPhase dmMismatch ∧
    dmMismatch.portStatusChange 2 = .err .invalidPortPhase dmMismatch :=
  c6_phase_mismatch_rejected_unchanged dmMismatch dmMismatch hwDefault 5 1 2
    .enableSlot .notConnected .configured rfl (by decide) (by decide) (by decide)
    (by decide) (by decide) (by decide)

/-! ### Claim C8: DCBAA construction and registration -/

/-- Claim C8 (amended): `DeviceContextBaseAddressArray::new(capacity)`
fails (asserts) exactly when capacity is outside 1..=255; `register(0, ptr)`
always fails; and for every i in 1..capacity, `register(i, ptr)` ALWAYS
succeeds — including a second registration at the same index, which silently
overwrites the previous pointer (there is no exactly-once guard). -/
theorem c8_dcbaa_new_and_register (capacity i p q : Nat)
    (d : DeviceContextBaseAddressArray)
    (hnew : DeviceContextBaseAddressArray.new capacity = some d)
    (hi1 : 1 ≤ i) (hic : i < capacity) :
    (∀ c, (DeviceContextBaseAddressArray.new c).isSome ↔ 1 ≤ c ∧ c ≤ 255) ∧
    (∀ ptr, d.register 0 ptr = none) ∧
    d.register i p = some { inner := d.inner.set i p } ∧
    DeviceContextBaseAddressArray.register { inner := d.inner.set i p } i q =
      some { inner := (d.inner.set i p).set i q } := by
  have hd : d.inner.length = capacity := by
    unfold DeviceContextBaseAddressArray.new at hnew
    by_cases hc : 1 ≤ capacity ∧ capacity ≤ 255
    · rw [if_pos hc] at hnew
      cases hnew
      simp
    · rw [if_neg hc] at hnew
      cases hnew
  refine ⟨?_, ?_, ?_, ?_⟩
  · intro c
    by_cases hc : 1 ≤ c ∧ c ≤ 255 <;>
      simp [DeviceContextBaseAddressArray.new, hc]
  · intro ptr
    simp [DeviceContextBaseAddressArray.register]
  · unfold DeviceContextBaseAddressArray.register
    rw [if_neg (by omega), if_pos (by omega)]
  · unfold DeviceContextBaseAddressArray.register
    rw [if_neg (by omega), if_pos (by simp [List.length_set]; omega)]

/-- Claim C8 witness instantiation. -/
theorem c8_dcbaa_new_and_register_witness :
    (∀ c, (DeviceContextBaseAddressArray.new c).isSome ↔ 1 ≤ c ∧ c ≤ 255) ∧
    (∀ ptr, DeviceContextBaseAddressArray.register { inner := [0, 0, 0, 0] } 0 ptr = none) ∧
    DeviceContextBaseAddressArray.register { inner := [0, 0, 0, 0] } 1 100 =
      some { inner := [0, 0, 0, 0].set 1 100 } ∧
    DeviceContextBaseAddressArray.register { inner := [0, 0, 0, 0].set 1 100 } 1 200 =
      some { inner := ([0, 0, 0, 0].set 1 100).set 1 200 } :=
  c8_dcbaa_new_and_register 4 1 100 200 { inner := [0, 0, 0, 0] } (by decide)
    (by decide) (by decide)

/-- Claim C8 counterexample: a second registration at the same index DOES
silently succeed, overwriting the previous pointer — falsifying
"succeeds exactly once per i". -/
theorem c8_register_twice_silently_succeeds :
    (DeviceContextBaseAddressArray.new 4).bind
        (fun d => (d.register 1 100).bind (fun d1 => d1.register 1 200)) =
      some { inner := [0, 200, 0, 0] } ∧
    (DeviceContextBaseAddressArray.new 4).bind (fun d => d.register 1 100) =
      some { inner := [0, 100, 0, 0] } := by
  decide

/-! ### Claim C1: control transfers and the issuer map -/

/-- Project the driver out of a successful driver operation. -/
def okDriver : Res Unit Driver → Option Driver
  | .ok _ d => some d
  | _ => none

/-- Computation of `Driver::control_transfer` with a data buffer on a fresh
driver (EP0 ring just allocated), fully spelled out. -/
theorem Driver.controlTransfer_fresh_ep0 (trHead port speed bufPtr bufLen : Nat)
    (setup : SetupData) (h1 : 1 ≤ bufLen) (h2 : bufLen ≤ 65536) :
    (Driver.new (Device.newWithEp0Enabled port speed trHead)).controlTransfer 1 setup
        (some (bufPtr, bufLen)) =
      .ok ()
        { device :=
            { transferRings :=
                ((List.replicate NUM_OF_ENDPOINT_CONTEXTS (none : Option (Producer TrbT))).set 0
                  (some (Producer.fresh TrbT TR_SIZE trHead trbEnumSize))).set 0
                  (some
                    { slots :=
                        (((List.replicate TR_SIZE (none : Option TrbT)).set 0
                            (some (TrbT.setupStage
                              { setup.toSetupStage with
                                  transferType := transferTypeIn, cycleBit := true }))).set 1
                          (some (TrbT.dataStage
                            { dataBufferPointer := bufPtr, trbTransferLength := bufLen
                            , tdSize := 0, directionIn := true
                            , interruptOnCompletion := true, cycleBit := true }))).set 2
                          (some (TrbT.statusStage
                            { directionIn := false, interruptOnCompletion := false
                            , cycleBit := true }))
                    , cycleBit := true, writeIndex := 3
                    , headAddr := trHead, elemSize := trbEnumSize })
            , rootHubPortNumber := port, speed := speed }
        , state := .uninvoked
        , issuers := [(trHead + 1 * trbEnumSize, .setupStage setup.toSetupStage)]
        , descBufs := List.replicate NUM_OF_ENDPOINTS none
        , numConfigurations := List.replicate NUM_OF_ENDPOINTS none } := by
  have hc : (1 ≤ bufLen ∧ bufLen ≤ 65536) := ⟨h1, h2⟩
  simp [Driver.controlTransfer, Device.controlTransfer, Driver.new, Device.newWithEp0Enabled,
    Producer.fresh, Producer.push, Producer.addrAt, linearMapInsert, hc,
    NUM_OF_ENDPOINT_CONTEXTS, TR_SIZE]
  exact ⟨rfl, rfl, rfl⟩

/-- The SetupData built by `Driver::get_descriptor` for
`GetDescriptor(Device, index = 0)` with the 18-byte device-descriptor buffer. -/
def c1GetDescSetup : SetupData :=
  { requestType := requestTypeDeviceStandardIn
  , request := requestCodeGetDescriptor
  , value := descriptorTypeDevice % 2 ^ 8 * 2 ^ 8 + 0 % 2 ^ 8
  , index := 0
  , length := deviceDescriptorSize }

/-- Claim C1 (amended): a control transfer with a data buffer on a fresh
driver's endpoint 0 pushes exactly three TRBs in order (Setup, Data, Status)
onto the EP0 transfer ring — write cursor 3, slot 3 untouched — and records
exactly one issuer-map entry whose key is the DATA-stage TRB's address
(`Ring::addr_at(1)` = head + 1 * elem_size, the address
`Device::control_transfer` returns), with the issued SetupData (as a
SetupStage TRB) as the value; the Setup-stage TRB's address (head, slot 0) is
NOT a key.  After issuing `GetDescriptor(Device, index = 0)` on endpoint 0,
looking up the recorded address yields a SetupData with
request = GetDescriptor, value = (DescriptorType::Device as u16) << 8 = 256,
and length = 18. -/
theorem c1_control_transfer_issuer_map (trHead port speed bufPtr bufLen : Nat)
    (setup : SetupData) (h1 : 1 ≤ bufLen) (h2 : bufLen ≤ 65536) :
    ((okDriver ((Driver.new (Device.newWithEp0Enabled port speed trHead)).controlTransfer 1
        setup (some (bufPtr, bufLen)))).map fun d =>
          (d.issuers,
           d.device.ep0Ring.map fun r =>
             (r.writeIndex, r.headAddr,
              r.slots[0]?, r.slots[1]?, r.slots[2]?, r.slots[3]?))) =
      some ([(trHead + 1 * trbEnumSize, .setupStage setup.toSetupStage)],
        some (3, trHead,
          some (some (TrbT.setupStage
            { setup.toSetupStage with transferType := transferTypeIn, cycleBit := true })),
          some (some (TrbT.dataStage
            { dataBufferPointer := bufPtr, trbTransferLength := bufLen, tdSize := 0
            , directionIn := true, interruptOnCompletion := true, cycleBit := true })),
          some (some (TrbT.statusStage
            { directionIn := false, interruptOnCompletion := false, cycleBit := true })),
          some none)) ∧
    List.lookup (trHead + 0 * trbEnumSize)
      [(trHead + 1 * trbEnumSize, Issuer.setupStage setup.toSetupStage)] = none ∧
    ((okDriver ((Driver.new (Device.newWithEp0Enabled 1 8 4096)).getDeviceDesc 1 8192)).bind
        fun d => List.lookup (4096 + 1 * trbEnumSize) d.issuers) =
      some (.setupStage c1GetDescSetup.toSetupStage) ∧
    c1GetDescSetup.toSetupStage.toSetupData =
      .ok { requestType := 128, request := 6, value := 256, index := 18, length := 18 } ∧
    requestCodeGetDescriptor = 6 ∧
    descriptorTypeDevice * 2 ^ 8 = 256 ∧
    deviceDescriptorSize = 18 := by
  refine ⟨?_, ?_, by decide, by rfl, rfl, by decide, rfl⟩
  · rw [Driver.controlTransfer_fresh_ep0 trHead port speed bufPtr bufLen setup h1 h2]
    rfl
  · have hb : (trHead == trHead + trbEnumSize) = false := by
      simp only [beq_eq_false_iff_ne, ne_eq, trbEnumSize]
      omega
    have hb2 : (trHead + trbEnumSize == trHead) = false := by
      simp only [beq_eq_false_iff_ne, ne_eq, trbEnumSize]
      omega
    simp [List.lookup, hb, hb2]

/-- Claim C1 witness instantiation. -/
theorem c1_control_transfer_issuer_map_witness :
    ((okDriver ((Driver.new (Device.newWithEp0Enabled 1 8 4096)).controlTransfer 1
        c1GetDescSetup (some (8192, 18)))).map fun d =>
          (d.issuers,
           d.device.ep0Ring.map fun r =>
             (r.writeIndex, r.headAddr,
              r.slots[0]?, r.slots[1]?, r.slots[2]?, r.slots[3]?))) =
      some ([(4096 + 1 * trbEnumSize, .setupStage c1GetDescSetup.toSetupStage)],
        some (3, 4096,
          some (some (TrbT.setupStage
            { c1GetDescSetup.toSetupStage with
                transferType := transferTypeIn, cycleBit := true })),
          some (some (TrbT.dataStage
            { dataBufferPointer := 8192, trbTransferLength := 18, tdSize := 0
            , directionIn := true, interruptOnCompletion := true, cycleBit := true })),
          some (some (TrbT.statusStage
            { directionIn := false, interruptOnCompletion := false, cycleBit := true })),
          some none)) ∧
    List.lookup (4096 + 0 * trbEnumSize)
      [(4096 + 1 * trbEnumSize, Issuer.setupStage c1GetDescSetup.toSetupStage)] = none ∧
    ((okDriver ((Driver.new (Device.newWithEp0Enabled 1 8 4096)).getDeviceDesc 1 8192)).bind
        fun d => List.lookup (4096 + 1 * trbEnumSize) d.issuers) =
      some (.setupStage c1GetDescSetup.toSetupStage) ∧
    c1GetDescSetup.toSetupStage.toSetupData =
      .ok { requestType := 128, request := 6, value := 256, index := 18, length := 18 } ∧
    requestCodeGetDescriptor = 6 ∧
    descriptorTypeDevice * 2 ^ 8 = 256 ∧
    deviceDescriptorSize = 18 :=
  c1_control_transfer_issuer_map 4096 1 8 8192 18 c1GetDescSetup (by decide) (by decide)

/-- Claim C1 counterexample: after `GetDescriptor(Device, 0)` on endpoint 0 of
a fresh driver whose EP0 ring head (= the Setup-stage TRB's slot-0 address)
is 4096, the issuer map's ONLY key is 4096 + 1 * elem_size — the Data-stage
TRB's address — and looking up the Setup-stage TRB's address 4096 yields
nothing, falsifying "the Setup-stage TRB's physical address is recorded as
the key". -/
theorem c1_setup_stage_address_not_key :
    ((okDriver ((Driver.new (Device.newWithEp0Enabled 1 8 4096)).getDeviceDesc 1 8192)).map
        fun d =>
          (List.lookup 4096 d.issuers, d.issuers.map Prod.fst,
           d.device.ep0Ring.map fun r => r.headAddr)) =
      some (none, [4096 + 1 * trbEnumSize], some 4096) ∧
    ¬ (4096 + 1 * trbEnumSize : Nat) = 4096 := by
  decide
